import Mathlib

/-
Verification of the lazy transform-caching shape feature (Shapes/Shape.h)
and the frame timing utility (Magnum/Timeline.h).

The shape feature is embedded as explicit state passing over `ShapeState`,
which bundles the feature's two shape holders (`_shape.shape` and
`_transformedShape.shape`), the owning node's dirty flag, an instrumentation
counter recording how many times the dispatch strategy's transform
computation (`Implementation::ShapeHelper<T>::transform`) has executed, and
the feature's address (object identity, used to state that `setShape`
returns `this`). The concrete shape type `T`, the matrix type `M`, the shape
type's pure `transformed(matrix)` operation `tr`, and the
default-constructed shape value `d` are parameters: the analytic shape
types are external collaborators of this core.

The scene-hierarchy node (`SceneGraph::AbstractObject::setDirty` /
`setClean`), the composite specialization's transform body, and the
Timeline's `start` / `stop` / `previousFrameTime` bodies live outside the
sources at hand; those are modelled from the spec, as marked on each
definition.
-/

namespace Magnum

namespace Shapes

/-- State of a `Shape<T>` feature together with its owning node's dirty bit.
`localShape` embeds the member `_shape.shape`, `worldCache` embeds the
member `_transformedShape.shape`, `nodeDirty` is the owning node's dirty
flag, `transformCount` counts executions of
`Implementation::ShapeHelper<T>::transform`, and `id` is the feature's
address. -/
structure ShapeState (T : Type) where
  localShape : T
  worldCache : T
  nodeDirty : Bool
  transformCount : Nat
  id : Nat

namespace Implementation

/-- Embeds `Implementation::ShapeHelper<T>::set`: writes the given value
into the feature's local holder `_shape.shape`. -/
def ShapeHelper.set {T : Type} (st : ShapeState T) (s : T) : ShapeState T :=
  { st with localShape := s }

/-- Embeds `Implementation::ShapeHelper<T>::transform`: writes the local
shape transformed by the absolute transformation matrix into the cached
world holder `_transformedShape.shape`. The counter records one execution
of the transform computation. -/
def ShapeHelper.transform {T M : Type} (tr : T → M → T) (st : ShapeState T)
    (m : M) : ShapeState T :=
  { st with worldCache := tr st.localShape m,
            transformCount := st.transformCount + 1 }

end Implementation

/-- Embeds `Shape<T>::Shape(object, group)`: both shape holders are
default-constructed to the value `d`; the owning node's dirty flag `dirty0`
is whatever it already was, the constructor does not touch it; no transform
computation runs. -/
def mkShape {T : Type} (d : T) (dirty0 : Bool) (i : Nat) : ShapeState T :=
  { localShape := d, worldCache := d, nodeDirty := dirty0,
    transformCount := 0, id := i }

/-- Embeds `Shape<T>::Shape(object, shape, group)`: as `mkShape`, then the
initial shape is installed via `Implementation::ShapeHelper<T>::set`. -/
def mkShapeWith {T : Type} (d : T) (dirty0 : Bool) (i : Nat) (s : T) :
    ShapeState T :=
  Implementation.ShapeHelper.set (mkShape d dirty0 i) s

/-- Embeds `Shape<T>::shape()`: returns the local holder's value; the state
is returned unchanged (the accessor is `const` and has no side effects). -/
def shape {T : Type} (st : ShapeState T) : ShapeState T × T :=
  (st, st.localShape)

/-- Modelled from the spec: `SceneGraph::AbstractObject::setDirty` (scene
hierarchy, an external collaborator whose source is not at hand) marks the
owning node dirty. -/
def setDirty {T : Type} (st : ShapeState T) : ShapeState T :=
  { st with nodeDirty := true }

/-- Embeds `Shape<T>::setShape`: installs the shape via
`Implementation::ShapeHelper<T>::set`, calls `object()->setDirty()`, and
returns `this` (the feature's own address). -/
def setShape {T : Type} (st : ShapeState T) (s : T) : ShapeState T × Nat :=
  (setDirty (Implementation.ShapeHelper.set st s), st.id)

/-- Embeds `Shape<T>::clean`: delegates to
`Implementation::ShapeHelper<T>::transform` with the absolute
transformation matrix supplied by the hierarchy. -/
def clean {T M : Type} (tr : T → M → T) (st : ShapeState T) (m : M) :
    ShapeState T :=
  Implementation.ShapeHelper.transform tr st m

/-- Modelled from the spec: `SceneGraph::AbstractObject::setClean` (scene
hierarchy, an external collaborator whose source is not at hand): if the
node is dirty, it computes the absolute transformation matrix `m` and
invokes the feature's `clean(m)`, then marks the node clean; if the node is
already clean it does nothing. -/
def setClean {T M : Type} (tr : T → M → T) (st : ShapeState T) (m : M) :
    ShapeState T :=
  if st.nodeDirty then { clean tr st m with nodeDirty := false } else st

/-- Embeds `Shape<T>::transformedShape()` (the world-shape read): calls
`object()->setClean()` and then returns the cached world holder's value. -/
def transformedShape {T M : Type} (tr : T → M → T) (st : ShapeState T)
    (m : M) : ShapeState T × T :=
  (setClean tr st m, (setClean tr st m).worldCache)

/-- Iterated `transformedShape()` reads, under an unchanged node absolute
transform `m` and no intervening mutation. -/
def readsN {T M : Type} (tr : T → M → T) (m : M) (st : ShapeState T) :
    Nat → ShapeState T
  | 0 => st
  | k + 1 => readsN tr m (transformedShape tr st m).1 k

/-- Iterated `setShape` calls: installs each value of the list in order. -/
def setsN {T : Type} (st : ShapeState T) : List T → ShapeState T
  | [] => st
  | s :: rest => setsN (setShape st s).1 rest

/-- Modelled from the spec:
`Implementation::ShapeHelper<Composition<dimensions>>::transform` (its body
lives in Shape.cpp, which is not at hand): a composite shape is an ordered
collection of sub-shapes and the transform is applied per sub-shape,
recursively dispatched, with sub-shape order preserved. -/
def compositionTransformed {T M : Type} (tr : T → M → T) (m : M)
    (subs : List T) : List T :=
  subs.map fun s => tr s m

end Shapes

/-- State of a `Timeline`. `startTime` and `previousFrameStamp` embed the
two `std::chrono` time points `_startTime` and `_previousFrameTime` (ticks
since epoch), `minimalFrameTime` and `previousFrameDuration` embed the two
`Float` members (seconds, modelled exactly as rationals since the code only
stores and returns them), `running` the flag, and `id` the object's
address. -/
structure Timeline where
  startTime : Nat
  previousFrameStamp : Nat
  minimalFrameTime : Rat
  previousFrameDuration : Rat
  running : Bool
  id : Nat

/-- Embeds `Timeline::Timeline()`: creates a stopped timeline with minimal
frame time 0 and previous frame duration 0; the time points are
default-constructed (epoch, tick 0). -/
def Timeline.create (i : Nat) : Timeline :=
  { startTime := 0, previousFrameStamp := 0, minimalFrameTime := 0,
    previousFrameDuration := 0, running := false, id := i }

/-- Embeds `Timeline::setMinimalFrameTime`: stores the value, with no
validation, and returns `*this`. -/
def Timeline.setMinimalFrameTime (t : Timeline) (seconds : Rat) : Timeline :=
  { t with minimalFrameTime := seconds }

/-- Modelled from the spec: `Timeline::start` (its body lives in
Timeline.cpp, which is not at hand): starts measuring at the current time
`now` and sets previous frame time and duration to 0. -/
def Timeline.start (t : Timeline) (now : Nat) : Timeline :=
  { t with running := true, startTime := now, previousFrameStamp := now,
           previousFrameDuration := 0 }

/-- Modelled from the spec: `Timeline::stop` (its body lives in
Timeline.cpp, which is not at hand): stops the timeline; per the spec the
stopped state yields zero durations. -/
def Timeline.stop (t : Timeline) : Timeline :=
  { t with running := false, previousFrameDuration := 0 }

/-- Modelled from the spec: `Timeline::previousFrameTime` (its body lives
in Timeline.cpp, which is not at hand): returns the time elapsed since
`start()` at the previous frame; if the timeline is stopped the function
returns 0.0f. -/
def Timeline.previousFrameTime (t : Timeline) : Rat :=
  if t.running then ((t.previousFrameStamp : Rat) - (t.startTime : Rat))
  else 0

end Magnum

namespace Magnum

open Shapes

/- Helper lemmas shared by the theorems below. -/

/-- Any number of `setShape` calls leaves the transform-computation counter
unchanged: `setShape` never recomputes the world cache. -/
theorem setsN_transformCount {T : Type} (ss : List T) :
    ∀ st : ShapeState T, (setsN st ss).transformCount = st.transformCount := by
  induction ss with
  | nil => intro st; rfl
  | cons s rest ih => intro st; exact ih (setShape st s).1

/-- After at least one `setShape` call the owning node is dirty. -/
theorem setsN_cons_nodeDirty {T : Type} (s : T) (rest : List T) :
    ∀ st : ShapeState T, (setsN st (s :: rest)).nodeDirty = true := by
  induction rest generalizing s with
  | nil => intro st; rfl
  | cons b bs ih => intro st; exact ih b (setShape st s).1

/-- On a clean node `setClean` is the identity. -/
theorem setClean_of_clean {T M : Type} (tr : T → M → T) (st : ShapeState T)
    (m : M) (h : st.nodeDirty = false) : setClean tr st m = st := by
  simp [setClean, h]

/-- After `setClean` the node is clean. -/
theorem setClean_nodeDirty {T M : Type} (tr : T → M → T) (st : ShapeState T)
    (m : M) : (setClean tr st m).nodeDirty = false := by
  by_cases h : st.nodeDirty <;> simp [setClean, h]

/-- Reads on a clean node change nothing at all. -/
theorem readsN_of_clean {T M : Type} (tr : T → M → T) (m : M) (k : Nat) :
    ∀ st : ShapeState T, st.nodeDirty = false → readsN tr m st k = st := by
  induction k with
  | zero => intro st h; rfl
  | succ k ih =>
      intro st h
      have hc : setClean tr st m = st := setClean_of_clean tr st m h
      calc readsN tr m st (k + 1)
          = readsN tr m (setClean tr st m) k := rfl
        _ = readsN tr m st k := by rw [hc]
        _ = st := ih st h

/-- C1: for the default dispatch strategy, after `setShape(s)` a subsequent
`worldShape()` read under absolute transform `M` returns exactly
`s.transformed(M)`, independent of whatever the world cache held before. -/
theorem C1_setShape_then_worldShape {T M : Type} (tr : T → M → T)
    (st : ShapeState T) (s : T) (m : M) :
    (transformedShape tr (setShape st s).1 m).2 = tr s m := rfl

/-- C2 counterexample: a sequence of one `setShape` call followed by zero
`worldShape()` reads executes the transform computation zero times, not
exactly once. -/
theorem C2_counterexample :
    ¬ ((readsN (fun (s m : Nat) => s + m) 0
          (setsN (mkShape 0 false 0) [5]) 0).transformCount
        = (mkShape (0 : Nat) false 0).transformCount + 1) := by
  decide

/-- C2 amended: for every feature and every sequence of at least one
`setShape` call followed by `k` `worldShape()` reads with no intervening
hierarchy transform change, the dispatch strategy's transform computation
executes zero times when `k = 0` and exactly once when `k ≥ 1` (never once
per read). -/
theorem C2_lazy_recompute {T M : Type} (tr : T → M → T) (m : M)
    (st : ShapeState T) (ss : List T) (k : Nat) (h : ss ≠ []) :
    (readsN tr m (setsN st ss) k).transformCount =
      (if k = 0 then st.transformCount else st.transformCount + 1) := by
  cases ss with
  | nil => exact absurd rfl h
  | cons s rest =>
      have hdirty : (setsN st (s :: rest)).nodeDirty = true :=
        setsN_cons_nodeDirty s rest st
      have hcount : (setsN st (s :: rest)).transformCount = st.transformCount :=
        setsN_transformCount (s :: rest) st
      cases k with
      | zero => simpa [readsN] using hcount
      | succ k =>
          have hone : setClean tr (setsN st (s :: rest)) m =
              { clean tr (setsN st (s :: rest)) m with nodeDirty := false } := by
            simp [setClean, hdirty]
          have hread : readsN tr m (setsN st (s :: rest)) (k + 1) =
              { clean tr (setsN st (s :: rest)) m with nodeDirty := false } := by
            calc readsN tr m (setsN st (s :: rest)) (k + 1)
                = readsN tr m (setClean tr (setsN st (s :: rest)) m) k := rfl
              _ = readsN tr m
                    { clean tr (setsN st (s :: rest)) m with nodeDirty := false }
                    k := by rw [hone]
              _ = { clean tr (setsN st (s :: rest)) m with nodeDirty := false } :=
                  readsN_of_clean tr m k _ rfl
          rw [hread]
          simp [clean, Implementation.ShapeHelper.transform, hcount]

/-- C2 witness: the amended statement at a concrete run with one `setShape`
call and one read. -/
theorem C2_lazy_recompute_witness :
    ([5] : List Nat) ≠ [] ∧
    (readsN (fun (s m : Nat) => s + m) 0
        (setsN (mkShape 0 false 0) [5]) 1).transformCount =
      (if (1 : Nat) = 0 then (mkShape (0 : Nat) false 0).transformCount
       else (mkShape (0 : Nat) false 0).transformCount + 1) :=
  ⟨by decide,
   C2_lazy_recompute (fun (s m : Nat) => s + m) 0 (mkShape 0 false 0) [5] 1
     (by decide)⟩

/-- C3: `clean(M)` is idempotent — a second call with the same `M` leaves
the cached world shape unchanged — and each call fully overwrites the
previous cached value with the transformed local shape. -/
theorem C3_clean_idempotent {T M : Type} (tr : T → M → T)
    (st : ShapeState T) (m : M) :
    (clean tr (clean tr st m) m).worldCache = (clean tr st m).worldCache ∧
    (clean tr st m).worldCache = tr st.localShape m :=
  ⟨rfl, rfl⟩

/-- C4: `setShape` installs the new value into the local holder via the
dispatch strategy, marks the owning node dirty, returns a pointer to the
feature itself, and does not eagerly recompute the cached world shape. -/
theorem C4_setShape_effects {T : Type} (st : ShapeState T) (s : T) :
    (setShape st s).1.localShape = s ∧
    (setShape st s).1.nodeDirty = true ∧
    (setShape st s).2 = st.id ∧
    (setShape st s).1.id = st.id ∧
    (setShape st s).1.worldCache = st.worldCache ∧
    (setShape st s).1.transformCount = st.transformCount :=
  ⟨rfl, rfl, rfl, rfl, rfl, rfl⟩

/-- C5: the local shape always equals the last value explicitly set, by
construction or by `setShape`; reading it via `shape()` has no side
effects; and neither `worldShape()` nor `clean(M)` modifies the local
holder. -/
theorem C5_local_shape_stable {T M : Type} (tr : T → M → T)
    (st : ShapeState T) (s d : T) (dirty0 : Bool) (i : Nat) (m : M) :
    (setShape st s).1.localShape = s ∧
    (mkShapeWith d dirty0 i s).localShape = s ∧
    shape st = (st, st.localShape) ∧
    (clean tr st m).localShape = st.localShape ∧
    ((transformedShape tr st m).1).localShape = st.localShape := by
  refine ⟨rfl, rfl, rfl, rfl, ?_⟩
  by_cases h : st.nodeDirty <;>
    simp [transformedShape, setClean, clean,
      Implementation.ShapeHelper.transform, h]

/-- C6: construction performs no transform computation: an initial shape,
when supplied, is installed into the local holder via the dispatch
strategy, and the cached world holder stays at its default-constructed
value `d`. -/
theorem C6_construction_lazy {T : Type} (d s : T) (dirty0 : Bool) (i : Nat) :
    (mkShapeWith d dirty0 i s).localShape = s ∧
    (mkShapeWith d dirty0 i s).worldCache = d ∧
    (mkShapeWith d dirty0 i s).transformCount = 0 ∧
    (mkShape d dirty0 i).localShape = d ∧
    (mkShape d dirty0 i).worldCache = d ∧
    (mkShape d dirty0 i).transformCount = 0 :=
  ⟨rfl, rfl, rfl, rfl, rfl, rfl⟩

/-- C7: transforming a composite built from sub-shapes `[s1, s2]` by `M`
yields the composite built from the transformed sub-shapes, order
preserved; and the composite dispatch strategy's world recompute writes
exactly that into the world cache. -/
theorem C7_composite_recursion {T M : Type} (tr : T → M → T) (s1 s2 : T)
    (m : M) (st : ShapeState (List T)) :
    compositionTransformed tr m [s1, s2] = [tr s1 m, tr s2 m] ∧
    (clean (fun subs mm => compositionTransformed tr mm subs) st m).worldCache
      = compositionTransformed tr m st.localShape :=
  ⟨rfl, rfl⟩

/-- C8: in the stopped state — never started, or stopped after anything —
`previousFrameDuration()` and `previousFrameTime()` both return 0. -/
theorem C8_stopped_yields_zero (i : Nat) (t : Timeline) :
    (Timeline.create i).previousFrameDuration = 0 ∧
    (Timeline.create i).previousFrameTime = 0 ∧
    (Timeline.stop t).previousFrameDuration = 0 ∧
    (Timeline.stop t).previousFrameTime = 0 := by
  refine ⟨rfl, rfl, rfl, ?_⟩
  simp [Timeline.previousFrameTime, Timeline.stop]

/-- C9: the constructor never marks the node dirty — with or without an
initial shape the node's dirty flag is exactly what it was before — and a
`worldShape()` read of the construction-time shape returns the untouched
default cache (with no recompute) when the node is clean, and a recomputed
world shape only when the node is dirty for some other reason. -/
theorem C9_ctor_marks_nothing_dirty {T M : Type} (tr : T → M → T)
    (d s : T) (dirty0 : Bool) (i : Nat) (m : M) :
    (mkShapeWith d dirty0 i s).nodeDirty = dirty0 ∧
    (mkShape d dirty0 i).nodeDirty = dirty0 ∧
    (transformedShape tr (mkShapeWith d false i s) m).2 = d ∧
    ((transformedShape tr (mkShapeWith d false i s) m).1).transformCount = 0 ∧
    (transformedShape tr (mkShapeWith d true i s) m).2 = tr s m :=
  ⟨rfl, rfl, rfl, rfl, rfl⟩

/-- C10: `setMinimalFrameTime(v)` stores exactly `v`, for any value
including zero and negatives, returns a reference to the same Timeline,
and changes no other Timeline state. -/
theorem C10_setMinimalFrameTime_frame (t : Timeline) (v : Rat) :
    (t.setMinimalFrameTime v).minimalFrameTime = v ∧
    (t.setMinimalFrameTime v).id = t.id ∧
    (t.setMinimalFrameTime v).running = t.running ∧
    (t.setMinimalFrameTime v).previousFrameDuration
      = t.previousFrameDuration ∧
    (t.setMinimalFrameTime v).startTime = t.startTime ∧
    (t.setMinimalFrameTime v).previousFrameStamp = t.previousFrameStamp :=
  ⟨rfl, rfl, rfl, rfl, rfl, rfl⟩

end Magnum
